import Mathlib

/-!
Verification of the head-racing-game repository (head-controlled racing game).

Shallow embedding of the two core subsystems:
* `src/src/head_tracking/head_tracker.py` — the pose calibrator/smoother
  (`HeadTracker.get_head_angle`, `HeadTracker.get_head_tilt`,
  `HeadTracker.calibrate`);
* `src/src/game/racing.py` — the driving simulator (`RacingGame.update`,
  `RacingGame._get_road_boundaries`, `RacingGame._check_collision`, ...).

Python floats are modelled as rationals (`ℚ`), Python ints as `ℤ`.
Randomness (`random.random()`, `random.uniform`) and wall-clock reads
(`time.time()`) are modelled as oracle inputs passed in explicitly.
-/

namespace HeadRacing

/-- Python `int(q)`: truncation toward zero of a float, modelled on `ℚ`. -/
def pyInt (q : ℚ) : ℤ :=
  if q < 0 then ⌈q⌉ else ⌊q⌋

/-! ## Head tracker (`src/src/head_tracking/head_tracker.py`) -/

/-- The mutable state of `HeadTracker` that the pose-signal functions read and
write: calibration baseline (`neutral_angle`, `neutral_tilt`, `is_calibrated`)
and exponential-smoothing state (`last_angle`, `last_tilt`); `current_tilt` is
the display copy saved by `get_head_tilt`. -/
structure TrackerState where
  is_calibrated : Bool
  neutral_angle : ℚ
  neutral_tilt : ℚ
  last_angle : ℚ
  last_tilt : ℚ
  current_tilt : ℚ
deriving DecidableEq, Repr

/-- The tracker state right after `HeadTracker.__init__`. -/
def initialTracker : TrackerState :=
  { is_calibrated := false
    neutral_angle := 0
    neutral_tilt := 0
    last_angle := 0
    last_tilt := 0
    current_tilt := 0 }

/-- `HeadTracker.get_head_angle` (head_tracker.py lines 174-198).
Inputs: `face_detected` (the flag maintained by `update`), `pose` — the result
of `_calculate_head_pose()` (`none` models the `(None, None)` return).
Returns the produced signal and the updated tracker state. -/
def get_head_angle (face_detected : Bool) (pose : Option (ℚ × ℚ))
    (st : TrackerState) : ℚ × TrackerState :=
  if !face_detected then (0, st)
  else
    match pose with
    | none => (0, st)
    | some raw =>
      let angle := if st.is_calibrated then raw.1 - st.neutral_angle else raw.1
      let angle := angle * 2
      let angle := max (-1) (min 1 angle)
      let angle := st.last_angle * (1 - 3/10) + angle * (3/10)
      (angle, { st with last_angle := angle })

/-- `HeadTracker.get_head_tilt` (head_tracker.py lines 200-227).
Same shape as `get_head_angle`, acting on the tilt component; additionally
saves the output into `current_tilt` for display. -/
def get_head_tilt (face_detected : Bool) (pose : Option (ℚ × ℚ))
    (st : TrackerState) : ℚ × TrackerState :=
  if !face_detected then (0, st)
  else
    match pose with
    | none => (0, st)
    | some raw =>
      let tilt := if st.is_calibrated then raw.2 - st.neutral_tilt else raw.2
      let tilt := tilt * 2
      let tilt := max (-1) (min 1 tilt)
      let tilt := st.last_tilt * (1 - 3/10) + tilt * (3/10)
      (tilt, { st with last_tilt := tilt, current_tilt := tilt })

/-- One iteration's worth of inputs to the `calibrate` while-loop: the value
`time.time()` would return at the loop head, and the pose collected on that
iteration (`none` when `update()` returned `False` or the pose was undefined,
so nothing is appended). -/
structure CalTick where
  t : ℚ
  pose : Option (ℚ × ℚ)
deriving DecidableEq, Repr

/-- The outcome of `HeadTracker.calibrate`: the baseline written back,
the `is_calibrated` flag, and the boolean return value. -/
structure CalResult where
  neutral_angle : ℚ
  neutral_tilt : ℚ
  is_calibrated : Bool
  success : Bool
deriving DecidableEq, Repr

/-- The successful exit of `calibrate` (head_tracker.py lines 115-121):
baselines are the arithmetic means of the collected samples. -/
def calFinish (samples : List (ℚ × ℚ)) : CalResult :=
  { neutral_angle := (samples.map Prod.fst).sum / samples.length
    neutral_tilt := (samples.map Prod.snd).sum / samples.length
    is_calibrated := true
    success := true }

/-- The while-loop of `HeadTracker.calibrate` (head_tracker.py lines 92-127),
driven by a finite trace of loop iterations. Returns `none` when the trace is
exhausted before the loop exits (in the real program time advances forever, so
the timeout always eventually fires). -/
def calibrateLoop (start : ℚ) : List CalTick → List (ℚ × ℚ) → Option CalResult
  | [], samples =>
    if 30 ≤ samples.length then some (calFinish samples) else none
  | tk :: rest, samples =>
    if 30 ≤ samples.length then some (calFinish samples)
    else if 10 < tk.t - start then
      some { neutral_angle := 0, neutral_tilt := 0, is_calibrated := true
             success := false }
    else
      match tk.pose with
      | none => calibrateLoop start rest samples
      | some p => calibrateLoop start rest (samples ++ [p])

/-- `HeadTracker.calibrate` started with a cleared sample list
(head_tracker.py line 88). -/
def calibrate (start : ℚ) (ticks : List CalTick) : Option CalResult :=
  calibrateLoop start ticks []

/-! ## Racing game (`src/src/game/racing.py`) -/

/-- A road segment (racing.py `road_segments` entries: `{'y': ..., 'curve': ...}`). -/
structure Segment where
  y : ℚ
  curve : ℚ
deriving DecidableEq, Repr

/-- The `RacingGame` mutable state relevant to the simulation core
(score/speed/position/cooldowns/road/obstacles); render-only fields
(fonts, surfaces, clouds, messages, `road_line_offset`) are omitted.
`road_center_x` is `width // 2`, `num_segments` is
`height // segment_height + 10`, both fixed at construction. -/
structure GameState where
  road_center_x : ℚ
  height : ℚ
  num_segments : ℕ
  road_curvature : ℚ
  target_curve : ℚ
  road_segments : List Segment
  speed : ℚ
  car_x : ℚ
  car_y : ℚ
  score : ℤ
  game_over : Bool
  obstacles : List (ℚ × ℚ)
  last_collision_time : ℚ
  last_obstacle_time : ℚ
  last_time_score : ℚ
deriving DecidableEq, Repr

/-- The oracle inputs consumed by one `RacingGame.update` call: the wall clock
(`time.time()`, taken once per tick) and the random draws. `segDraws` feeds the
road-refill loop: each element is the outcome of `random.random() < 0.05`
paired with the `random.uniform(-max_curvature, max_curvature)` value that
would be drawn. `spawnRoll` is the outcome of
`random.random() < obstacle_spawn_rate`, `spawnX` the
`random.uniform(road_left + 20, road_right - obstacle_width - 20)` draw. -/
structure Env where
  now : ℚ
  segDraws : List (Bool × ℚ)
  spawnRoll : Bool
  spawnX : ℚ
deriving Repr

/-- The throttle/brake/friction branch of the speed update (racing.py lines
200-208): accelerate for `head_tilt < -0.1`, brake for `head_tilt > 0.1`,
otherwise apply the friction constant `0.01` toward zero. -/
def throttleSpeed (head_tilt speed : ℚ) : ℚ :=
  if head_tilt < -1/10 then speed + (5/100) * (-head_tilt) * 3
  else if 1/10 < head_tilt then speed - (1/10) * head_tilt * 3
  else if 0 < speed then speed - 1/100 else speed + 1/100

/-- The speed update of `RacingGame.update` (racing.py lines 200-215):
throttle/brake/friction branch, clamp to `[min_speed, max_speed] = [0, 10]`,
then the 1.0 floor imposed while not game-over. -/
def updateSpeed (game_over : Bool) (head_tilt speed : ℚ) : ℚ :=
  let s := max 0 (min 10 (throttleSpeed head_tilt speed))
  if game_over = false ∧ s < 1 then 1 else s

/-- One smoothing step of the road curvature toward the target
(racing.py lines 128-131 and 237-240): move by at most
`curvature_change_speed = 0.002`. -/
def stepCurvature (cur target : ℚ) : ℚ :=
  if cur < target then min (cur + 1/500) target
  else if target < cur then max (cur - 1/500) target
  else cur

/-- The segment-refill while-loop of `RacingGame.update` (racing.py lines
231-247): insert new segments at the front until `num_segments` are present,
evolving the curvature random walk one step per insertion. `fuel` bounds the
iteration count (the loop adds one segment per iteration, so `num_segments`
iterations always suffice). -/
def refillSegments (numSegments : ℕ) :
    ℕ → List (Bool × ℚ) → ℚ → ℚ → List Segment → ℚ × ℚ × List Segment
  | 0, _, cur, tgt, segs => (cur, tgt, segs)
  | fuel + 1, draws, cur, tgt, segs =>
    if segs.length < numSegments then
      let d := draws.headD (false, 0)
      let tgt := if d.1 then d.2 else tgt
      let cur := stepCurvature cur tgt
      let newY := match segs with
        | [] => 0
        | s :: _ => s.y - 5
      refillSegments numSegments fuel draws.tail cur tgt
        ({ y := newY, curve := cur } :: segs)
    else (cur, tgt, segs)

/-- The road-scroll block of `RacingGame.update` (racing.py lines 218-247),
restricted to the simulation-relevant effects: scroll every segment down by
`speed * 3`, drop segments past `height + segment_height`, refill to
`num_segments`. Runs only when `speed > 0`. -/
def scrollPhase (env : Env) (g : GameState) : GameState :=
  if 0 < g.speed then
    let segs := (g.road_segments.map fun s => { s with y := s.y + g.speed * 3 }).filter
      fun s => s.y < g.height + 5
    let r := refillSegments g.num_segments g.num_segments env.segDraws
      g.road_curvature g.target_curve segs
    { g with road_curvature := r.1, target_curve := r.2.1, road_segments := r.2.2 }
  else g

/-- `RacingGame._get_road_boundaries` closest-segment scan (racing.py lines
317-324): iterate in list order keeping the first segment with strictly
smaller distance to `y_pos`. -/
def closestAux (y_pos : ℚ) : Segment → ℚ → List Segment → Segment
  | best, _, [] => best
  | best, bestD, s :: rest =>
    if |s.y - y_pos| < bestD then closestAux y_pos s (|s.y - y_pos|) rest
    else closestAux y_pos best bestD rest

/-- The `closest_segment` found by `RacingGame._get_road_boundaries`
(`none` when the segment list is empty). -/
def closestSegment (y_pos : ℚ) : List Segment → Option Segment
  | [] => none
  | s :: rest => some (closestAux y_pos s (|s.y - y_pos|) rest)

/-- `RacingGame._get_road_boundaries` (racing.py lines 314-337):
`center_x = road_center_x + curve * (y_pos / height) * 200`, boundaries
`center_x ∓ road_width // 2` with `road_width // 2 = 150`; default centered
boundaries when there is no segment. -/
def get_road_boundaries (g : GameState) (y_pos : ℚ) : ℚ × ℚ :=
  match closestSegment y_pos g.road_segments with
  | some seg =>
    let center_x := g.road_center_x + seg.curve * (y_pos / g.height) * 200
    (center_x - 150, center_x + 150)
  | none => (g.road_center_x - 150, g.road_center_x + 150)

/-- The cooldown-gated score deduction used for both the off-road penalty
(racing.py lines 259-261) and the collision penalty (lines 274-276): deduct
`penalty` and reset the timer only when more than
`collision_cooldown = 1.0` seconds have passed since `last_collision_time`. -/
def gatedPenalty (penalty : ℤ) (now : ℚ) (score : ℤ) (last : ℚ) : ℤ × ℚ :=
  if 1 < now - last then (score - penalty, now) else (score, last)

/-- The lateral-control and off-road block of `RacingGame.update` (racing.py
lines 250-266): move the car by `head_angle * steering_sensitivity`, deduct the
cooldown-gated `off_road_penalty = 5` when the car rectangle exceeds the road
boundaries, then clamp `car_x` to the boundaries with ±20 overshoot. -/
def offRoadPhase (now : ℚ) (head_angle : ℚ) (g : GameState) : GameState :=
  let g := { g with car_x := g.car_x + head_angle * 5 }
  let lr := get_road_boundaries g g.car_y
  let g :=
    if g.car_x < lr.1 ∨ lr.2 < g.car_x + 40 then
      let p := gatedPenalty 5 now g.score g.last_collision_time
      { g with score := p.1, last_collision_time := p.2 }
    else g
  { g with car_x := max (lr.1 - 20) (min (lr.2 - 40 + 20) g.car_x) }

/-- `RacingGame._update_obstacles` (racing.py lines 339-383): scroll obstacles
by `speed * 3`, award +1 score per obstacle leaving the bottom, and spawn one
obstacle at the top when the timing/probability/speed/spacing gates all pass. -/
def obstaclePhase (env : Env) (g : GameState) : GameState :=
  let moved := g.obstacles.map fun ob => (ob.1, ob.2 + g.speed * 3)
  let kept := moved.filter fun ob => decide (ob.2 < g.height)
  let passed := (moved.filter fun ob => decide (g.height ≤ ob.2)).length
  let g := { g with obstacles := kept, score := g.score + passed }
  if decide (1 < env.now - g.last_obstacle_time) && env.spawnRoll &&
      decide ((1:ℚ)/2 < g.speed) then
    if g.obstacles.all fun ob => decide (100 ≤ ob.2) then
      { g with obstacles := g.obstacles ++ [(env.spawnX, 0)],
               last_obstacle_time := env.now }
    else g
  else g

/-- `pygame.Rect.colliderect` on two positive-size integer rectangles
`(x, y, w, h)`: true iff the rectangles overlap. -/
def colliderect (ax ay aw ah bx by' bw bh : ℤ) : Bool :=
  decide (ax < bx + bw) && decide (bx < ax + aw) &&
  decide (ay < by' + bh) && decide (by' < ay + ah)

/-- The obstacle scan of `RacingGame._check_collision` (racing.py lines
388-398): test the car rectangle (`car_width = 40`, `car_height = 70`) against
each obstacle rectangle (`obstacle_width = 40`, `obstacle_height = 60`) in list
order; on the first hit return the list with that obstacle removed. -/
def findCollision (car_x car_y : ℚ) : List (ℚ × ℚ) → Option (List (ℚ × ℚ))
  | [] => none
  | ob :: rest =>
    if colliderect (pyInt car_x) (pyInt car_y) 40 70 (pyInt ob.1) (pyInt ob.2) 40 60 then
      some rest
    else
      match findCollision car_x car_y rest with
      | some rest' => some (ob :: rest')
      | none => none

/-- The severe off-road test of `RacingGame._check_collision` (racing.py line
403): the car rectangle is fully outside the road boundaries by more than 50
units. -/
def severelyOffRoad (g : GameState) : Bool :=
  let lr := get_road_boundaries g g.car_y
  decide (g.car_x + 40 < lr.1 - 50) || decide (lr.2 + 50 < g.car_x)

/-- `RacingGame._check_collision` (racing.py lines 385-413): returns
(collision?, remaining obstacles, score). The severe off-road branch deducts
`off_road_penalty * 2 = 10` directly, with no cooldown gate. -/
def check_collision (g : GameState) : Bool × List (ℚ × ℚ) × ℤ :=
  match findCollision g.car_x g.car_y g.obstacles with
  | some obs' => (true, obs', g.score)
  | none =>
    if severelyOffRoad g then (true, g.obstacles, g.score - 10)
    else (false, g.obstacles, g.score)

/-- The collision block of `RacingGame.update` (racing.py lines 272-278):
run `_check_collision`, then apply the cooldown-gated
`collision_penalty = 10` when a collision was reported. -/
def collisionPhase (now : ℚ) (g : GameState) : GameState :=
  let c := check_collision g
  let g := { g with obstacles := c.2.1, score := c.2.2 }
  if c.1 then
    let p := gatedPenalty 10 now g.score g.last_collision_time
    { g with score := p.1, last_collision_time := p.2 }
  else g

/-- The game-over check of `RacingGame.update` (racing.py lines 281-285):
when the score has reached 0 it is clamped to 0 and the game ends. -/
def gameOverPhase (g : GameState) : GameState :=
  if g.score ≤ 0 then { g with score := 0, game_over := true } else g

/-- Python `int(speed * 0.01)`: the per-tick speed-based score increment
(racing.py line 296). -/
def speedScoreBonus (speed : ℚ) : ℤ :=
  pyInt (speed * (1/100))

/-- The speed-based score accrual of `RacingGame.update` (racing.py lines
294-296): add `int(speed * 0.01)` while moving and not game-over. -/
def speedBonusStep (g : GameState) : GameState :=
  if 0 < g.speed ∧ g.game_over = false then
    { g with score := g.score + speedScoreBonus g.speed }
  else g

/-- The survival-time score accrual of `RacingGame.update` (racing.py lines
299-304): add `time_score_amount = 5` once `time_score_interval = 5` seconds
have elapsed, while not game-over. -/
def timeBonusStep (now : ℚ) (g : GameState) : GameState :=
  if 5 ≤ now - g.last_time_score ∧ g.game_over = false then
    { g with score := g.score + 5, last_time_score := now }
  else g

/-- The score-accrual block of `RacingGame.update` (racing.py lines 294-304). -/
def bonusPhase (now : ℚ) (g : GameState) : GameState :=
  timeBonusStep now (speedBonusStep g)

/-- `RacingGame.update` (racing.py lines 183-312), as the composition of the
phases above in source order; returns the state unchanged when `game_over` is
already set (lines 194-195). -/
def update (env : Env) (g : GameState) (head_angle head_tilt : ℚ) : GameState :=
  if g.game_over then g
  else
    let g := { g with speed := updateSpeed g.game_over head_tilt g.speed }
    let g := scrollPhase env g
    let g := offRoadPhase env.now head_angle g
    let g := obstaclePhase env g
    let g := collisionPhase env.now g
    let g := gameOverPhase g
    bonusPhase env.now g

/-! ## Helper lemmas -/

theorem clamp_unit_bounds (x : ℚ) :
    -1 ≤ max (-1) (min 1 x) ∧ max (-1) (min 1 x) ≤ 1 :=
  ⟨le_max_left _ _, max_le (by norm_num) (min_le_left _ _)⟩

theorem ema_step_bounds (p c : ℚ) (hp : |p| ≤ 1) (hc1 : -1 ≤ c) (hc2 : c ≤ 1) :
    -1 ≤ p * (1 - 3/10) + c * (3/10) ∧ p * (1 - 3/10) + c * (3/10) ≤ 1 := by
  rw [abs_le] at hp
  constructor <;> nlinarith [hp.1, hp.2]

/-! ## Claims about the head tracker -/

/-- C3: on a tick with no face detected (or an undefined pose),
`get_head_angle` and `get_head_tilt` both return exactly `0.0` and leave the
tracker state — in particular the smoothing state `last_angle`/`last_tilt` —
completely unchanged: a hard reset to neutral output, not one more smoothing
step toward zero. -/
theorem no_face_hard_reset (fd : Bool) (pose : Option (ℚ × ℚ))
    (st : TrackerState) (h : fd = false ∨ pose = none) :
    get_head_angle fd pose st = (0, st) ∧ get_head_tilt fd pose st = (0, st) := by
  rcases h with h | h
  · subst h
    cases pose <;> simp [get_head_angle, get_head_tilt]
  · subst h
    cases fd <;> simp [get_head_angle, get_head_tilt]

theorem no_face_hard_reset_witness :
    get_head_angle false (some (1, 1)) initialTracker = (0, initialTracker) ∧
    get_head_tilt false (some (1, 1)) initialTracker = (0, initialTracker) :=
  no_face_hard_reset false (some (1, 1)) initialTracker (Or.inl rfl)

/-- C6: on a tick with a detected face and a defined raw pose, once calibrated,
`get_head_angle` and `get_head_tilt` each return
`smoothed = previous_smoothed * (1 - 0.3) + clamp((raw - neutral) * 2.0, -1, 1) * 0.3`,
persist that value as the new `previous_smoothed` (`last_angle`/`last_tilt`),
and — given the invariant that the previous smoothed value lies in `[-1, 1]`
(true initially, since `initialTracker` has `last_angle = last_tilt = 0`, and
preserved by every step) — the returned steering and throttle values lie in
`[-1, 1]`. -/
theorem smoothing_step_formula (st : TrackerState) (ra rt : ℚ)
    (hc : st.is_calibrated = true) :
    (get_head_angle true (some (ra, rt)) st).1 =
      st.last_angle * (1 - 3/10) +
        max (-1) (min 1 ((ra - st.neutral_angle) * 2)) * (3/10) ∧
    ((get_head_angle true (some (ra, rt)) st).2).last_angle =
      (get_head_angle true (some (ra, rt)) st).1 ∧
    (get_head_tilt true (some (ra, rt)) st).1 =
      st.last_tilt * (1 - 3/10) +
        max (-1) (min 1 ((rt - st.neutral_tilt) * 2)) * (3/10) ∧
    ((get_head_tilt true (some (ra, rt)) st).2).last_tilt =
      (get_head_tilt true (some (ra, rt)) st).1 ∧
    (|st.last_angle| ≤ 1 →
      -1 ≤ (get_head_angle true (some (ra, rt)) st).1 ∧
        (get_head_angle true (some (ra, rt)) st).1 ≤ 1) ∧
    (|st.last_tilt| ≤ 1 →
      -1 ≤ (get_head_tilt true (some (ra, rt)) st).1 ∧
        (get_head_tilt true (some (ra, rt)) st).1 ≤ 1) := by
  have ha : (get_head_angle true (some (ra, rt)) st).1 =
      st.last_angle * (1 - 3/10) +
        max (-1) (min 1 ((ra - st.neutral_angle) * 2)) * (3/10) := by
    simp [get_head_angle, hc]
  have ht : (get_head_tilt true (some (ra, rt)) st).1 =
      st.last_tilt * (1 - 3/10) +
        max (-1) (min 1 ((rt - st.neutral_tilt) * 2)) * (3/10) := by
    simp [get_head_tilt, hc]
  refine ⟨ha, by simp [get_head_angle, hc], ht, by simp [get_head_tilt, hc],
    fun h => ?_, fun h => ?_⟩
  · rw [ha]
    exact ema_step_bounds _ _ h (clamp_unit_bounds _).1 (clamp_unit_bounds _).2
  · rw [ht]
    exact ema_step_bounds _ _ h (clamp_unit_bounds _).1 (clamp_unit_bounds _).2

/-- A concrete calibrated tracker state used by witnesses. -/
def calibratedTracker : TrackerState :=
  { is_calibrated := true
    neutral_angle := 1/10
    neutral_tilt := -1/10
    last_angle := 1/2
    last_tilt := -1/2
    current_tilt := 0 }

theorem smoothing_step_formula_witness :
    -1 ≤ (get_head_angle true (some (2, -2)) calibratedTracker).1 ∧
      (get_head_angle true (some (2, -2)) calibratedTracker).1 ≤ 1 :=
  (smoothing_step_formula calibratedTracker 2 (-2) rfl).2.2.2.2.1
    (by norm_num [calibratedTracker, abs_le])

/-- The timeout exit of `calibrate` (head_tracker.py lines 95-100). -/
def calTimeoutResult : CalResult :=
  { neutral_angle := 0, neutral_tilt := 0, is_calibrated := true, success := false }

theorem calibrateLoop_timeout (start : ℚ) (tk : CalTick)
    (htk : 10 < tk.t - start) :
    ∀ (pre post : List CalTick) (samples : List (ℚ × ℚ)),
      (∀ x ∈ pre, x.t - start ≤ 10) →
      samples.length + pre.countP (fun x => x.pose.isSome) < 30 →
      calibrateLoop start (pre ++ tk :: post) samples = some calTimeoutResult
  | [], post, samples, _, hcount => by
    have hlen : ¬ 30 ≤ samples.length := by omega
    simp only [List.nil_append, calibrateLoop, hlen, if_false, htk, if_true]
    rfl
  | x :: pre, post, samples, hpre, hcount => by
    have hlen : ¬ 30 ≤ samples.length := by
      have := hcount
      omega
    have hx : ¬ 10 < x.t - start := not_lt.mpr (hpre x (List.mem_cons_self x pre))
    simp only [List.cons_append, calibrateLoop, hlen, if_false, hx]
    have hpre' : ∀ y ∈ pre, y.t - start ≤ 10 := fun y hy =>
      hpre y (List.mem_cons_of_mem x hy)
    cases hp : x.pose with
    | none =>
      have hcount' : samples.length + pre.countP (fun x => x.pose.isSome) < 30 := by
        rw [List.countP_cons, hp] at hcount
        simpa using hcount
      simpa using calibrateLoop_timeout start tk htk pre post samples hpre' hcount'
    | some p =>
      have hcount' : (samples ++ [p]).length +
          pre.countP (fun x => x.pose.isSome) < 30 := by
        rw [List.countP_cons] at hcount
        simp [hp] at hcount
        simp only [List.length_append, List.length_singleton]
        omega
      simpa using calibrateLoop_timeout start tk htk pre post (samples ++ [p]) hpre' hcount'

/-- C7: when fewer than 30 pose samples are collected before the 10-second
wall-clock timeout (some loop iteration sees `time.time() - start > 10` while
all earlier iterations were in time and supplied fewer than 30 defined poses),
`calibrate` sets `neutral_angle = 0`, `neutral_tilt = 0`, sets `is_calibrated`
to `true`, and returns `False` — reporting failure without blocking gameplay. -/
theorem calibrate_timeout_defaults (start : ℚ) (pre post : List CalTick)
    (tk : CalTick) (hpre : ∀ x ∈ pre, x.t - start ≤ 10)
    (htk : 10 < tk.t - start)
    (hcount : pre.countP (fun x => x.pose.isSome) < 30) :
    calibrate start (pre ++ tk :: post) = some calTimeoutResult :=
  calibrateLoop_timeout start tk htk pre post [] hpre (by simpa using hcount)

theorem calibrate_timeout_defaults_witness :
    calibrate 0 ([⟨1, some (2/10, -1/10)⟩, ⟨2, none⟩] ++ ⟨11, none⟩ :: []) =
      some calTimeoutResult :=
  calibrate_timeout_defaults 0 [⟨1, some (2/10, -1/10)⟩, ⟨2, none⟩] [] ⟨11, none⟩
    (by simp only [List.forall_mem_cons, List.forall_mem_nil]; norm_num)
    (by norm_num) (by simp [List.countP_cons])

/-! ## Speed lemmas -/

theorem updateSpeed_running_bounds (t s : ℚ) :
    1 ≤ updateSpeed false t s ∧ updateSpeed false t s ≤ 10 := by
  unfold updateSpeed
  dsimp only
  split
  · rename_i h
    refine ⟨le_refl 1, by norm_num⟩
  · rename_i h
    rw [not_and_or] at h
    rcases h with h | h
    · exact absurd rfl h
    · push_neg at h
      exact ⟨h, max_le (by norm_num) (min_le_left _ _)⟩

theorem scrollPhase_speed (env : Env) (g : GameState) :
    (scrollPhase env g).speed = g.speed := by
  unfold scrollPhase
  split <;> rfl

theorem offRoadPhase_speed (now a : ℚ) (g : GameState) :
    (offRoadPhase now a g).speed = g.speed := by
  unfold offRoadPhase
  dsimp only
  split <;> rfl

theorem obstaclePhase_speed (env : Env) (g : GameState) :
    (obstaclePhase env g).speed = g.speed := by
  unfold obstaclePhase
  dsimp only
  split
  · split <;> rfl
  · rfl

theorem collisionPhase_speed (now : ℚ) (g : GameState) :
    (collisionPhase now g).speed = g.speed := by
  unfold collisionPhase
  dsimp only
  split <;> rfl

theorem gameOverPhase_speed (g : GameState) :
    (gameOverPhase g).speed = g.speed := by
  unfold gameOverPhase
  split <;> rfl

theorem speedBonusStep_speed (g : GameState) :
    (speedBonusStep g).speed = g.speed := by
  unfold speedBonusStep
  split <;> rfl

theorem timeBonusStep_speed (now : ℚ) (g : GameState) :
    (timeBonusStep now g).speed = g.speed := by
  unfold timeBonusStep
  split <;> rfl

theorem bonusPhase_speed (now : ℚ) (g : GameState) :
    (bonusPhase now g).speed = g.speed := by
  unfold bonusPhase
  rw [timeBonusStep_speed, speedBonusStep_speed]

theorem update_speed_eq (env : Env) (g : GameState) (a t : ℚ)
    (h : g.game_over = false) :
    (update env g a t).speed = updateSpeed false t g.speed := by
  unfold update
  rw [if_neg (by simp [h])]
  rw [bonusPhase_speed, gameOverPhase_speed, collisionPhase_speed,
    obstaclePhase_speed, offRoadPhase_speed, scrollPhase_speed, h]

/-! ## Claims about speed -/

/-- C5 counterexample: at entering speed `1.0` with neutral throttle `t = 0`
(so `|t| ≤ 0.1` and speed `> 0`), the speed update leaves the speed at `1.0`
(the minimum-speed floor re-raises `0.99` to `1.0`) instead of decreasing it
by exactly the friction constant to `0.99`. -/
theorem friction_exact_decrease_cex :
    updateSpeed false 0 1 = 1 ∧ (1 : ℚ) - 1/100 ≠ 1 := by
  constructor
  · unfold updateSpeed throttleSpeed
    norm_num
  · norm_num

/-- C5 (amended): for `|t| ≤ 0.1` and entering speed `s` with `0 < s ≤ 10`,
the speed update applies the friction decrement `0.01` exactly whenever the
result stays at or above the 1.0 floor (`s ≥ 1.01`); for `s < 1.01` the
not-game-over minimum-speed floor forces the new speed to `1.0` instead; the
speed never goes below `min_speed = 0`. -/
theorem friction_step_amended (t s : ℚ) (ht : |t| ≤ 1/10) (h0 : 0 < s)
    (h10 : s ≤ 10) :
    (101/100 ≤ s → updateSpeed false t s = s - 1/100) ∧
    (s < 101/100 → updateSpeed false t s = 1) ∧
    0 ≤ updateSpeed false t s := by
  rw [abs_le] at ht
  have hts : throttleSpeed t s = s - 1/100 := by
    unfold throttleSpeed
    rw [if_neg (by linarith), if_neg (by linarith), if_pos h0]
  have hmin : min 10 (throttleSpeed t s) = s - 1/100 := by
    rw [hts]
    exact min_eq_right (by linarith)
  refine ⟨fun h101 => ?_, fun hlt => ?_, ?_⟩
  · have hmax : max 0 (min 10 (throttleSpeed t s)) = s - 1/100 := by
      rw [hmin]
      exact max_eq_right (by linarith)
    unfold updateSpeed
    rw [hmax, if_neg]
    rintro ⟨-, hcon⟩
    linarith
  · unfold updateSpeed
    dsimp only
    rw [if_pos]
    refine ⟨rfl, ?_⟩
    rw [hmin]
    rcases le_or_lt (s - 1/100) 0 with hs | hs
    · rw [max_eq_left hs]
      norm_num
    · rw [max_eq_right (le_of_lt hs)]
      linarith
  · linarith [(updateSpeed_running_bounds t s).1]

theorem friction_step_amended_witness :
    updateSpeed false 0 2 = 2 - 1/100 :=
  (friction_step_amended 0 2 (by norm_num) (by norm_num) (by norm_num)).1
    (by norm_num)

/-- C2: after every `update` call entered in the Running state
(`game_over = false`), the speed lies in `[min_speed, max_speed] = [0, 10]`,
and whenever the game is not over the speed is at least `1.0` (in fact the
floor is re-imposed on every tick, so the resulting speed is at least `1.0`
unconditionally). -/
theorem speed_clamped_and_floored (env : Env) (g : GameState) (a t : ℚ)
    (h : g.game_over = false) :
    0 ≤ (update env g a t).speed ∧ (update env g a t).speed ≤ 10 ∧
      ((update env g a t).game_over = false → 1 ≤ (update env g a t).speed) := by
  rw [update_speed_eq env g a t h]
  obtain ⟨h1, h10⟩ := updateSpeed_running_bounds t g.speed
  exact ⟨by linarith, h10, fun _ => h1⟩

/-- A concrete environment used by witnesses. -/
def sampleEnv : Env :=
  { now := 100, segDraws := [], spawnRoll := false, spawnX := 0 }

/-- A concrete running game state used by witnesses. -/
def sampleGame : GameState :=
  { road_center_x := 512
    height := 768
    num_segments := 0
    road_curvature := 0
    target_curve := 0
    road_segments := []
    speed := 1
    car_x := 512
    car_y := 668
    score := 100
    game_over := false
    obstacles := []
    last_collision_time := 0
    last_obstacle_time := 0
    last_time_score := 100 }

theorem speed_clamped_and_floored_witness :
    0 ≤ (update sampleEnv sampleGame 0 0).speed ∧
      (update sampleEnv sampleGame 0 0).speed ≤ 10 ∧
      ((update sampleEnv sampleGame 0 0).game_over = false →
        1 ≤ (update sampleEnv sampleGame 0 0).speed) :=
  speed_clamped_and_floored sampleEnv sampleGame 0 0 rfl

theorem speedScoreBonus_eq_zero (q : ℚ) (h0 : 0 ≤ q) (h10 : q ≤ 10) :
    speedScoreBonus q = 0 := by
  unfold speedScoreBonus pyInt
  rw [if_neg (by linarith), Int.floor_eq_zero_iff]
  constructor <;> simp <;> linarith

/-- C10: the per-tick speed-based score increment `int(speed * 0.01)` is `0`
after every `update` tick entered in the Running state, because the speed is
clamped to at most `max_speed = 10`, so `speed * 0.01 ≤ 0.1` truncates to `0`;
the speed-based accrual therefore never increases the score. -/
theorem speed_score_bonus_always_zero (env : Env) (g : GameState) (a t : ℚ)
    (h : g.game_over = false) :
    speedScoreBonus ((update env g a t).speed) = 0 := by
  rw [update_speed_eq env g a t h]
  obtain ⟨h1, h10⟩ := updateSpeed_running_bounds t g.speed
  exact speedScoreBonus_eq_zero _ (by linarith) h10

theorem speed_score_bonus_always_zero_witness :
    speedScoreBonus ((update sampleEnv sampleGame 0 0).speed) = 0 :=
  speed_score_bonus_always_zero sampleEnv sampleGame 0 0 rfl

/-! ## Score lemmas -/

theorem pyInt_nonneg (q : ℚ) (h : 0 ≤ q) : 0 ≤ pyInt q := by
  unfold pyInt
  rw [if_neg (not_lt.mpr h)]
  exact Int.floor_nonneg.mpr h

theorem speedScoreBonus_nonneg (q : ℚ) (h : 0 ≤ q) :
    0 ≤ speedScoreBonus q := by
  unfold speedScoreBonus
  exact pyInt_nonneg _ (by linarith)

theorem gameOverPhase_props (g : GameState) :
    0 ≤ (gameOverPhase g).score ∧
      ((gameOverPhase g).game_over = false → 0 < (gameOverPhase g).score) := by
  unfold gameOverPhase
  split
  · exact ⟨le_refl 0, fun hc => by simp at hc⟩
  · rename_i h
    push_neg at h
    exact ⟨le_of_lt h, fun _ => h⟩

theorem speedBonusStep_props (g : GameState) :
    (speedBonusStep g).game_over = g.game_over ∧
      g.score ≤ (speedBonusStep g).score ∧
      (g.game_over = true → (speedBonusStep g).score = g.score) := by
  unfold speedBonusStep
  split
  · rename_i h
    refine ⟨rfl, ?_, fun hgo => ?_⟩
    · have := speedScoreBonus_nonneg g.speed (le_of_lt h.1)
      simp only
      omega
    · rw [h.2] at hgo
      exact absurd hgo (by simp)
  · exact ⟨rfl, le_refl _, fun _ => rfl⟩

theorem timeBonusStep_props (now : ℚ) (g : GameState) :
    (timeBonusStep now g).game_over = g.game_over ∧
      g.score ≤ (timeBonusStep now g).score ∧
      (g.game_over = true → (timeBonusStep now g).score = g.score) := by
  unfold timeBonusStep
  split
  · rename_i h
    refine ⟨rfl, by simp only; omega, fun hgo => ?_⟩
    · rw [h.2] at hgo
      exact absurd hgo (by simp)
  · exact ⟨rfl, le_refl _, fun _ => rfl⟩

theorem bonusPhase_props (now : ℚ) (g : GameState) :
    (bonusPhase now g).game_over = g.game_over ∧
      g.score ≤ (bonusPhase now g).score ∧
      (g.game_over = true → (bonusPhase now g).score = g.score) := by
  unfold bonusPhase
  obtain ⟨h1go, h1le, h1fix⟩ := speedBonusStep_props g
  obtain ⟨h2go, h2le, h2fix⟩ := timeBonusStep_props now (speedBonusStep g)
  refine ⟨by rw [h2go, h1go], le_trans h1le h2le, fun hgo => ?_⟩
  rw [h2fix (by rw [h1go, hgo]), h1fix hgo]

theorem endPhases_score (now : ℚ) (g : GameState) :
    0 ≤ (bonusPhase now (gameOverPhase g)).score ∧
      ((bonusPhase now (gameOverPhase g)).score = 0 →
        (bonusPhase now (gameOverPhase g)).game_over = true) := by
  obtain ⟨hge, hpos⟩ := gameOverPhase_props g
  obtain ⟨hgo, hle, -⟩ := bonusPhase_props now (gameOverPhase g)
  refine ⟨le_trans hge hle, fun h0 => ?_⟩
  by_contra hne
  have hf : (bonusPhase now (gameOverPhase g)).game_over = false := by
    cases hb : (bonusPhase now (gameOverPhase g)).game_over
    · rfl
    · exact absurd hb hne
  rw [hgo] at hf
  have := hpos hf
  omega

/-! ## Claims about score and game over -/

/-- C1: after every `update` call entered in the Running state, the score is
nonnegative, and if the score is `0` then it has been clamped to `0` with
`game_over` set; once `game_over` is set, every subsequent `update` call
returns immediately, leaving the whole state — in particular score and
positions — unchanged (the state is terminal). -/
theorem score_floor_and_terminal (env : Env) (g : GameState) (a t : ℚ) :
    (g.game_over = true → update env g a t = g) ∧
    (g.game_over = false →
      0 ≤ (update env g a t).score ∧
        ((update env g a t).score = 0 → (update env g a t).game_over = true)) := by
  constructor
  · intro h
    unfold update
    rw [if_pos h]
  · intro h
    have hu : update env g a t =
        bonusPhase env.now (gameOverPhase (collisionPhase env.now
          (obstaclePhase env (offRoadPhase env.now a (scrollPhase env
            { g with speed := updateSpeed g.game_over t g.speed }))))) := by
      unfold update
      rw [if_neg (by simp [h])]
    rw [hu]
    exact endPhases_score env.now _

theorem score_floor_and_terminal_witness :
    0 ≤ (update sampleEnv sampleGame 0 0).score ∧
      ((update sampleEnv sampleGame 0 0).score = 0 →
        (update sampleEnv sampleGame 0 0).game_over = true) :=
  (score_floor_and_terminal sampleEnv sampleGame 0 0).2 rfl

/-! ## Claims about the penalty cooldown -/

/-- C4: for the two cooldown-gated penalty deductions of `update` (the
off-road penalty, racing.py lines 257-263, and the collision penalty, lines
272-278, both applied through `gatedPenalty`), two penalty events at times
`t₁ ≤ t₂` with the cooldown clear before the first one deduct only once when
they are within `collision_cooldown = 1.0` seconds of each other, and both
deduct when spaced by more than the cooldown. -/
theorem cooldown_two_events (p₁ p₂ : ℤ) (t₁ t₂ : ℚ) (score : ℤ) (last : ℚ)
    (h₁ : 1 < t₁ - last) :
    (t₂ - t₁ ≤ 1 →
      (gatedPenalty p₂ t₂ (gatedPenalty p₁ t₁ score last).1
        (gatedPenalty p₁ t₁ score last).2).1 = score - p₁) ∧
    (1 < t₂ - t₁ →
      (gatedPenalty p₂ t₂ (gatedPenalty p₁ t₁ score last).1
        (gatedPenalty p₁ t₁ score last).2).1 = score - p₁ - p₂) := by
  have hfirst : gatedPenalty p₁ t₁ score last = (score - p₁, t₁) := by
    unfold gatedPenalty
    rw [if_pos h₁]
  rw [hfirst]
  constructor
  · intro h
    unfold gatedPenalty
    rw [if_neg (by simpa using not_lt.mpr h)]
  · intro h
    unfold gatedPenalty
    rw [if_pos (by simpa using h)]

theorem cooldown_two_events_witness :
    (gatedPenalty 10 (5/2) (gatedPenalty 5 2 100 0).1
      (gatedPenalty 5 2 100 0).2).1 = 100 - 5 :=
  (cooldown_two_events 5 10 2 (5/2) 100 0 (by norm_num)).1 (by norm_num)

/-! ## Claims about road boundaries -/

theorem closestAux_spec (y : ℚ) :
    ∀ (l : List Segment) (best : Segment),
      (closestAux y best (|best.y - y|) l = best ∨
        closestAux y best (|best.y - y|) l ∈ l) ∧
      |(closestAux y best (|best.y - y|) l).y - y| ≤ |best.y - y| ∧
      ∀ s ∈ l, |(closestAux y best (|best.y - y|) l).y - y| ≤ |s.y - y|
  | [], best => ⟨Or.inl rfl, le_refl _, by simp⟩
  | s :: rest, best => by
    have hdef : closestAux y best (|best.y - y|) (s :: rest) =
        if |s.y - y| < |best.y - y| then closestAux y s (|s.y - y|) rest
        else closestAux y best (|best.y - y|) rest := rfl
    by_cases hlt : |s.y - y| < |best.y - y|
    · have hstep : closestAux y best (|best.y - y|) (s :: rest) =
          closestAux y s (|s.y - y|) rest := by
        rw [hdef, if_pos hlt]
      obtain ⟨hmem, hbnd, hall⟩ := closestAux_spec y rest s
      rw [hstep]
      refine ⟨?_, le_trans hbnd (le_of_lt hlt), fun x hx => ?_⟩
      · rcases hmem with h | h
        · refine Or.inr ?_
          rw [h]
          exact List.mem_cons_self s rest
        · exact Or.inr (List.mem_cons_of_mem s h)
      · rcases List.mem_cons.mp hx with rfl | hx
        · exact hbnd
        · exact hall x hx
    · have hstep : closestAux y best (|best.y - y|) (s :: rest) =
          closestAux y best (|best.y - y|) rest := by
        rw [hdef, if_neg hlt]
      obtain ⟨hmem, hbnd, hall⟩ := closestAux_spec y rest best
      rw [hstep]
      refine ⟨?_, hbnd, fun x hx => ?_⟩
      · rcases hmem with h | h
        · exact Or.inl h
        · exact Or.inr (List.mem_cons_of_mem s h)
      · rcases List.mem_cons.mp hx with rfl | hx
        · exact le_trans hbnd (not_lt.mp hlt)
        · exact hall x hx

/-- C8: `_get_road_boundaries` returns
`(center_x - road_width/2, center_x + road_width/2)` with
`center_x = road_center_x + curve * (y_pos / height) * 200` and
`road_width/2 = 150`, where `curve` is taken from a segment of the list whose
`y` is nearest to `y_pos` (the first such under the scan order); when the
segment list is empty it returns the default centered boundaries
`road_center_x ∓ 150` rather than failing. -/
theorem road_boundaries_spec (g : GameState) (y : ℚ) :
    (g.road_segments = [] →
      get_road_boundaries g y =
        (g.road_center_x - 150, g.road_center_x + 150)) ∧
    (g.road_segments ≠ [] →
      ∃ seg ∈ g.road_segments,
        (∀ s ∈ g.road_segments, |seg.y - y| ≤ |s.y - y|) ∧
        get_road_boundaries g y =
          (g.road_center_x + seg.curve * (y / g.height) * 200 - 150,
           g.road_center_x + seg.curve * (y / g.height) * 200 + 150)) := by
  constructor
  · intro h
    unfold get_road_boundaries closestSegment
    rw [h]
  · intro h
    match hsegs : g.road_segments with
    | [] => exact absurd hsegs h
    | a :: rest =>
      obtain ⟨hmem, hbnd, hall⟩ := closestAux_spec y rest a
      refine ⟨closestAux y a (|a.y - y|) rest, ?_, fun s hs => ?_, ?_⟩
      · rcases hmem with hm | hm
        · rw [hm]
          exact List.mem_cons_self a rest
        · exact List.mem_cons_of_mem a hm
      · rcases List.mem_cons.mp hs with rfl | hs
        · exact hbnd
        · exact hall s hs
      · unfold get_road_boundaries
        rw [show closestSegment y g.road_segments =
            some (closestAux y a (|a.y - y|) rest) from by rw [hsegs]; rfl]

theorem road_boundaries_spec_witness :
    get_road_boundaries sampleGame 668 =
      (sampleGame.road_center_x - 150, sampleGame.road_center_x + 150) :=
  (road_boundaries_spec sampleGame 668).1 rfl

/-! ## Claims about severe off-road -/

/-- C9 counterexample: a tick on which the car IS severely off-road (car at
`x = 700` against default boundaries `(250, 550)` of an 800-wide game) but an
obstacle also overlaps the car. `_check_collision` returns from the obstacle
scan before reaching the severe off-road branch, so with the cooldown not yet
elapsed the score is not decreased at all — refuting the claim that every
severely-off-road tick unconditionally deducts 10 points. -/
def cexSevereGame : GameState :=
  { road_center_x := 400
    height := 600
    num_segments := 0
    road_curvature := 0
    target_curve := 0
    road_segments := []
    speed := 1
    car_x := 700
    car_y := 500
    score := 100
    game_over := false
    obstacles := [(700, 500)]
    last_collision_time := 100
    last_obstacle_time := 0
    last_time_score := 0 }

theorem severe_offroad_unconditional_cex :
    severelyOffRoad cexSevereGame = true ∧
    ¬ (1 < (100 : ℚ) - cexSevereGame.last_collision_time) ∧
    (collisionPhase 100 cexSevereGame).score = cexSevereGame.score := by
  refine ⟨?_, ?_, ?_⟩
  · norm_num [severelyOffRoad, get_road_boundaries, closestSegment, cexSevereGame]
  · norm_num [cexSevereGame]
  · norm_num [collisionPhase, check_collision, findCollision, colliderect,
      pyInt, gatedPenalty, cexSevereGame]

/-- C9 (amended): on every `update` tick on which `_check_collision` finds no
obstacle intersecting the car and the car is severely off-road (the car
rectangle fully outside the road boundaries by more than 50 units), the score
is decreased by `2 * off_road_penalty = 10` unconditionally — even when the
collision cooldown has not elapsed — before the cooldown-gated
`collision_penalty = 10` is additionally considered for the same event.
(When an obstacle collision is detected on the same tick, the obstacle branch
returns first and the unconditional severe off-road deduction is skipped.) -/
theorem severe_offroad_unconditional (now : ℚ) (g : GameState)
    (hobs : findCollision g.car_x g.car_y g.obstacles = none)
    (hsev : severelyOffRoad g = true) :
    (collisionPhase now g).score =
      g.score - 10 - (if 1 < now - g.last_collision_time then 10 else 0) := by
  unfold collisionPhase check_collision
  rw [hobs]
  simp only [hsev, if_true, gatedPenalty]
  by_cases h : 1 < now - g.last_collision_time
  · rw [if_pos h, if_pos h]
  · rw [if_neg h, if_neg h]
    omega

/-- A concrete severely-off-road state with no obstacles, for the C9 witness. -/
def severeGame : GameState :=
  { cexSevereGame with obstacles := [] }

theorem severe_offroad_unconditional_witness :
    (collisionPhase 100 severeGame).score =
      severeGame.score - 10 -
        (if 1 < (100 : ℚ) - severeGame.last_collision_time then 10 else 0) :=
  severe_offroad_unconditional 100 severeGame rfl
    (by norm_num [severelyOffRoad, get_road_boundaries, closestSegment,
      severeGame, cexSevereGame])
